import Mathlib

/-!
Shallow embedding of `src/kisunyabot.py`, a Telegram bot that replies to
chat messages with cat images fetched from one of two HTTP endpoints.

The embedding models:
- JSON values decoded from an HTTP body (`Json`);
- an HTTP response as its status code together with the result of calling
  `.json()` on it (`Response`; `jsonBody = none` means `.json()` raises
  `JSONDecodeError`);
- the Python exceptions the module can raise (`PyError`);
- `parse_answer`, `get_response` and the three message handlers
  (`new_image`, `reply_to_message`, `wake_up`), with the network and the
  Telegram bot API made explicit as a `World` of outcomes, and the
  observable effects made explicit as the list of gateway calls delivered
  to the user and the ordered list of endpoint URLs that HTTP GET requests
  were issued to.

Logging calls are side-effect-free for the properties considered and are
not modelled; Russian log/exception message texts are abbreviated to short
placeholders, while the data the exceptions structurally carry (endpoint
URL, status code) is modelled exactly.
-/

namespace Kisunyabot

/-- A JSON value as produced by Python json decoding. An `obj` models a
decoded Python dict: its keys are distinct, so association-list lookup
agrees with dict indexing. -/
inductive Json where
  | null
  | bool (b : Bool)
  | num (n : Int)
  | str (s : String)
  | arr (elems : List Json)
  | obj (fields : List (String × Json))

/-- An HTTP response (`requests.models.Response`): its status code and the
result of `.json()` — `none` when the body is not valid JSON, in which case
`.json()` raises `JSONDecodeError`. -/
structure Response where
  status_code : Nat
  jsonBody : Option Json

/-- The Python exceptions raised by the module.
`apiAnswerStatusCodeError` is the custom `APIAnswerStatusCodeError`; the
source builds its message from the endpoint URL and the status code, which
we carry structurally. `transportError` stands for a network-level
exception raised by `requests.get`. -/
inductive PyError where
  | typeError (msg : String)
  | valueError (msg : String)
  | keyError (key : String)
  | apiAnswerStatusCodeError (endpoint : String) (status : Nat)
  | transportError (msg : String)

def DEFAULT_ENDPOINT : String := "https://api.thecatapi.com/v1/images/search"

def BACKUP_ENDPOINT : String := "https://api.thedogapi.com/v1/images/search"

def BUTTON : String := "Подай котика!"

/-- `HTTPStatus.OK`. -/
def HTTPStatus_OK : Nat := 200

/-- `parse_answer` (lines 73-105). Validates the decoded body and extracts
the value of the "url" field of the first element.

Note on the first branch (lines 75-80): `except JSONDecodeError as error`
binds `error` to the caught exception INSTANCE, and `raise error(text)`
first evaluates `error(text)`. Exception instances are not callable, so
that call itself raises `TypeError: JSONDecodeError object is not
callable`, which is what actually propagates out of `parse_answer` —
not a `JSONDecodeError`. -/
def parse_answer (response : Response) : Except PyError Json :=
  match response.jsonBody with
  | none =>
      -- line 80: `raise error(text)` calls the exception instance
      Except.error (.typeError "JSONDecodeError object is not callable")
  | some decoded =>
      match decoded with
      | .arr elems =>
          match elems with
          | [] =>
              -- line 90: empty list
              Except.error (.valueError "decoded answer is empty")
          | first :: _ =>
              match first with
              | .obj fields =>
                  match fields.lookup "url" with
                  | some v => Except.ok v
                  | none =>
                      -- line 102: no "url" key
                      Except.error (.keyError "url")
              | _ =>
                  -- line 98: first element is not a dict
                  Except.error (.typeError "element is not a dict")
      | _ =>
          -- line 86: decoded value is not a list
          Except.error (.typeError "decoded value is not a list")

/-- The outcome of one `requests.get(url)` call: either a network-level
exception or a response object. -/
inductive FetchOutcome where
  | transportError (msg : String)
  | ok (response : Response)

/-- The `except` branch of `get_response` (lines 118-127): one GET to the
backup endpoint; a transport error there is not caught, a non-OK status
raises `APIAnswerStatusCodeError` carrying the backup URL and the status. -/
def backup_attempt (secondary : FetchOutcome) (trace : List String) :
    Except PyError Response × List String :=
  match secondary with
  | .transportError msg =>
      (Except.error (.transportError msg), trace ++ [BACKUP_ENDPOINT])
  | .ok response =>
      if response.status_code ≠ HTTPStatus_OK then
        (Except.error
          (.apiAnswerStatusCodeError BACKUP_ENDPOINT response.status_code),
         trace ++ [BACKUP_ENDPOINT])
      else
        (Except.ok response, trace ++ [BACKUP_ENDPOINT])

/-- `get_response` (lines 108-128), parameterised by the outcomes the
network would give to the primary and the secondary GET. Returns the
result (response or raised exception) together with the ordered list of
endpoint URLs a GET was issued to. The `try` block GETs the default
endpoint and raises `APIAnswerStatusCodeError` on a non-200 status; any
exception in the block (transport error or the raised status error) is
caught and answered with the single backup attempt. -/
def get_response (primary secondary : FetchOutcome) :
    Except PyError Response × List String :=
  match primary with
  | .transportError _ => backup_attempt secondary [DEFAULT_ENDPOINT]
  | .ok response =>
      if response.status_code ≠ HTTPStatus_OK then
        backup_attempt secondary [DEFAULT_ENDPOINT]
      else
        (Except.ok response, [DEFAULT_ENDPOINT])

/-- `update.effective_chat`: chat id and the display name used by the
greeting. -/
structure Chat where
  id : Int
  first_name : String

/-- The outcomes the external world would give to each effectful call a
handler can make: the two HTTP GETs, `bot.send_message` and
`bot.send_photo` (`true` = the call succeeds, `false` = it raises). -/
structure World where
  primary : FetchOutcome
  secondary : FetchOutcome
  sendMessageOk : Bool
  sendPhotoOk : Bool

/-- An outbound call delivered to the messaging gateway. -/
inductive GatewayCall where
  | sendText (chat_id : Int) (text : String)
  | sendImage (chat_id : Int) (url : Json)

/-- The apology text of `new_image` and `wake_up` (lines 143-144, 173-174). -/
def APOLOGY_TEXT : String :=
  "К сожалению, сервис на данный момент недоступен. Попробуйте обратиться позднее."

/-- The fixed reply of `reply_to_message` (lines 152-153). -/
def CANT_CHAT_TEXT : String :=
  "К сожалению, я не умею общаться. Но зато мастерски ищу фотографии котиков."

/-- The greeting of `wake_up` (line 162). -/
def greeting_text (name : String) : String :=
  "Привет, " ++ name ++ ". Посмотри, какого котика я тебе нашёл!"

/-- `send_message` (lines 59-70): attempts `bot.send_message` and catches
any exception, only logging it. Returns the gateway calls actually
delivered: the text when the bot call succeeds, nothing when it raises. -/
def send_message (w : World) (chat_id : Int) (text : String) :
    List GatewayCall :=
  if w.sendMessageOk then [GatewayCall.sendText chat_id text] else []

/-- The `try/except` image flow shared verbatim by `new_image`
(lines 135-145) and `wake_up` (lines 165-175): fetch, parse, send the
photo; any exception is caught and answered with the apology text via
`send_message`. Returns the delivered gateway calls and the HTTP trace. -/
def image_flow (w : World) (chat : Chat) :
    List GatewayCall × List String :=
  match get_response w.primary w.secondary with
  | (Except.error _, trace) => (send_message w chat.id APOLOGY_TEXT, trace)
  | (Except.ok response, trace) =>
      match parse_answer response with
      | Except.error _ => (send_message w chat.id APOLOGY_TEXT, trace)
      | Except.ok image =>
          if w.sendPhotoOk then
            ([GatewayCall.sendImage chat.id image], trace)
          else
            (send_message w chat.id APOLOGY_TEXT, trace)

/-- `new_image` (lines 131-145): the button-message handler is exactly the
image flow. -/
def new_image (w : World) (chat : Chat) : List GatewayCall × List String :=
  image_flow w chat

/-- `reply_to_message` (lines 148-154): any other text gets the fixed
cannot-chat reply; no HTTP request is made. -/
def reply_to_message (w : World) (chat : Chat) :
    List GatewayCall × List String :=
  (send_message w chat.id CANT_CHAT_TEXT, [])

/-- `wake_up` (lines 157-175): greet by `chat.first_name`, then run the
image flow. -/
def wake_up (w : World) (chat : Chat) : List GatewayCall × List String :=
  match image_flow w chat with
  | (calls, trace) =>
      (send_message w chat.id (greeting_text chat.first_name) ++ calls, trace)

/-- Whether `needle` occurs as a contiguous run inside `haystack`
(an empty `needle` occurs everywhere). -/
def infix_of_list (needle haystack : List Char) : Bool :=
  match haystack with
  | [] => needle.isEmpty
  | c :: t => needle.isPrefixOf (c :: t) || infix_of_list needle t

/-- Python string containment `needle in haystack`: substring test. -/
def str_contains (haystack needle : String) : Bool :=
  infix_of_list needle.toList haystack.toList

/-- The `CommandHandler` registered for start (line 198), at text level:
the first whitespace-separated token of the message text is "/start"
(command arguments may follow it; the `@botname` form and the
command-entity bookkeeping are resolved by the gateway and not
modelled). -/
def is_start_command (text : String) : Bool :=
  String.mk (text.toList.takeWhile (fun c => c ≠ ' ')) == "/start"

/-- The filter built by `Filters.text(BUTTON)` at line 200. `BUTTON` is a
plain string, not a list of strings, so the python-telegram-bot v13 test
`message.text in BUTTON` is Python SUBSTRING containment of the message
text in the button label; empty texts are rejected first. -/
def button_filter (text : String) : Bool :=
  !text.toList.isEmpty && str_contains BUTTON text

/-- The bare `Filters.text` of line 203: any message with non-empty
text. -/
def text_filter (text : String) : Bool :=
  !text.toList.isEmpty

/-- The handler registration of `main` (lines 198-204): the start command
handler first, then the button-text handler, then the catch-all text
handler; the first handler whose filter matches runs, and an event no
handler matches produces nothing. -/
def dispatch (w : World) (chat : Chat) (text : String) :
    List GatewayCall × List String :=
  if is_start_command text then wake_up w chat
  else if button_filter text then new_image w chat
  else if text_filter text then reply_to_message w chat
  else ([], [])

/-- Whether the primary attempt of `get_response` failed: a transport
error, or a status code other than 200 (which line 116 turns into a raised
exception). -/
def primary_failed (primary : FetchOutcome) : Bool :=
  match primary with
  | .transportError _ => true
  | .ok response => response.status_code ≠ HTTPStatus_OK

/-- The image flow fails: the fetch raises, or the fetched response fails
parsing, or `bot.send_photo` raises. -/
def image_flow_fails (w : World) : Prop :=
  (∃ e, (get_response w.primary w.secondary).1 = Except.error e) ∨
  (∃ r e, (get_response w.primary w.secondary).1 = Except.ok r ∧
      parse_answer r = Except.error e) ∨
  w.sendPhotoOk = false

/-! Helper lemmas shared by the claim theorems. -/

/-- When the primary GET yields status 200, `get_response` returns that
response and only the default endpoint was contacted. -/
theorem get_response_primary_ok (r : Response) (secondary : FetchOutcome)
    (h : r.status_code = HTTPStatus_OK) :
    get_response (.ok r) secondary = (Except.ok r, [DEFAULT_ENDPOINT]) := by
  simp [get_response, h]

/-- When the primary attempt failed, `get_response` is the backup attempt
after the primary GET. -/
theorem get_response_primary_failed (primary secondary : FetchOutcome)
    (h : primary_failed primary = true) :
    get_response primary secondary = backup_attempt secondary [DEFAULT_ENDPOINT] := by
  cases primary with
  | transportError msg => rfl
  | ok r =>
      simp only [primary_failed, decide_eq_true_eq] at h
      simp [get_response, h]

/-- The two endpoint URLs are distinct strings. -/
theorem endpoints_distinct : DEFAULT_ENDPOINT ≠ BACKUP_ENDPOINT := by
  decide

/-- C1: for every payload decoding as JSON into a non-empty list whose
first element is an object with key "url", `parse_answer` returns exactly
the value of that "url" field, whatever the status code, the remaining
elements of the list and the remaining fields of the first element are. -/
theorem C1_parse_returns_first_url (status : Nat)
    (fields : List (String × Json)) (rest : List Json) (v : Json)
    (h : fields.lookup "url" = some v) :
    parse_answer ⟨status, some (.arr (.obj fields :: rest))⟩ = Except.ok v := by
  simp [parse_answer, h]

/-- Witness for C1 at a concrete payload with extra fields and a second
element, both ignored. -/
theorem C1_parse_returns_first_url_witness :
    ([("id", Json.str "abc"), ("url", Json.str "http://x/cat.png")].lookup "url"
        = some (Json.str "http://x/cat.png")) ∧
    parse_answer ⟨200, some (.arr [.obj [("id", Json.str "abc"),
        ("url", Json.str "http://x/cat.png")], .obj [("url", Json.str "other")]])⟩
      = Except.ok (Json.str "http://x/cat.png") :=
  ⟨rfl, C1_parse_returns_first_url 200
    [("id", Json.str "abc"), ("url", Json.str "http://x/cat.png")]
    [.obj [("url", Json.str "other")]] (Json.str "http://x/cat.png") rfl⟩

/-- C2 (code bug): on a body that does not decode as JSON, `parse_answer`
does not fail with a JSON-decode error: line 80 `raise error(text)` calls
the caught `JSONDecodeError` instance, which raises
`TypeError: JSONDecodeError object is not callable` — the same exception
type that the shape checks of lines 86 and 98 use, so the first validation
step has no distinct typed error. The second conjunct evaluates the
not-a-list step for comparison: the same `TypeError` type. -/
theorem C2_json_branch_raises_type_error :
    parse_answer ⟨200, none⟩ =
      Except.error (.typeError "JSONDecodeError object is not callable") ∧
    parse_answer ⟨200, some (Json.obj [])⟩ =
      Except.error (.typeError "decoded value is not a list") :=
  ⟨rfl, rfl⟩

/-- C3: the HTTP trace of `get_response` is exactly
`[DEFAULT_ENDPOINT, BACKUP_ENDPOINT]` when the primary attempt failed
(transport error or non-200 status) and exactly `[DEFAULT_ENDPOINT]` when
it returned status 200: the secondary endpoint is contacted if and only if
the primary attempt failed, and then exactly once, before `get_response`
returns or fails. -/
theorem C3_secondary_iff_primary_failed (primary secondary : FetchOutcome) :
    (get_response primary secondary).2 =
      (if primary_failed primary then [DEFAULT_ENDPOINT, BACKUP_ENDPOINT]
       else [DEFAULT_ENDPOINT]) ∧
    (get_response primary secondary).2.count BACKUP_ENDPOINT =
      (if primary_failed primary then 1 else 0) := by
  have htrace : (get_response primary secondary).2 =
      (if primary_failed primary then [DEFAULT_ENDPOINT, BACKUP_ENDPOINT]
       else [DEFAULT_ENDPOINT]) := by
    by_cases h : primary_failed primary = true
    · rw [get_response_primary_failed primary secondary h, h]
      cases secondary with
      | transportError msg => simp [backup_attempt]
      | ok r =>
          by_cases hs : r.status_code = HTTPStatus_OK <;>
            simp [backup_attempt, hs]
    · cases primary with
      | transportError msg => simp [primary_failed] at h
      | ok r =>
          simp only [primary_failed, decide_eq_true_eq, ne_eq,
            Decidable.not_not] at h
          rw [get_response_primary_ok r secondary h]
          simp [primary_failed, h]
  refine ⟨htrace, ?_⟩
  rw [htrace]
  by_cases h : primary_failed primary = true <;>
    simp [h, List.count_cons, List.count_singleton, endpoints_distinct,
      Ne.symm endpoints_distinct]

/-- The image flow leaves the HTTP trace of `get_response` unchanged:
parsing and photo sending issue no HTTP requests. -/
theorem image_flow_trace (w : World) (chat : Chat) :
    (image_flow w chat).2 = (get_response w.primary w.secondary).2 := by
  unfold image_flow
  rcases hg : get_response w.primary w.secondary with ⟨res, trace⟩
  cases res with
  | error e => rfl
  | ok r =>
      cases hp : parse_answer r with
      | error e => simp [hp]
      | ok v => by_cases hph : w.sendPhotoOk <;> simp [hp, hph]

/-- `wake_up` is the greeting prepended to the image flow, with the image
flow HTTP trace. -/
theorem wake_up_eq (w : World) (chat : Chat) :
    wake_up w chat =
      (send_message w chat.id (greeting_text chat.first_name) ++
        (image_flow w chat).1, (image_flow w chat).2) := by
  unfold wake_up
  rcases h : image_flow w chat with ⟨calls, trace⟩
  rfl

/-- C4: a parse failure never triggers the fallback. When the primary GET
returns status 200, neither `new_image` nor `wake_up` ever issues a
request to the secondary endpoint — whatever the response body is, in
particular when `parse_answer` fails on it — because `parse_answer` runs
strictly after `get_response` has returned. -/
theorem C4_parse_failure_no_fallback (w : World) (chat : Chat) (r : Response)
    (hp : w.primary = .ok r) (hs : r.status_code = HTTPStatus_OK) :
    (new_image w chat).2.count BACKUP_ENDPOINT = 0 ∧
    (wake_up w chat).2.count BACKUP_ENDPOINT = 0 := by
  have h1 : (image_flow w chat).2 = [DEFAULT_ENDPOINT] := by
    rw [image_flow_trace, hp, get_response_primary_ok r w.secondary hs]
  have hcount : (image_flow w chat).2.count BACKUP_ENDPOINT = 0 := by
    rw [h1]
    simp [List.count_singleton, Ne.symm endpoints_distinct]
  exact ⟨hcount, by rw [wake_up_eq]; exact hcount⟩

/-- Witness for C4: primary returns 200 with a body that is not JSON, so
`parse_answer` fails, and still no GET reaches the secondary endpoint. -/
theorem C4_parse_failure_no_fallback_witness :
    (World.mk (.ok ⟨200, none⟩) (.ok ⟨200, none⟩) true true).primary
        = .ok ⟨200, none⟩ ∧
    (Response.mk 200 none).status_code = HTTPStatus_OK ∧
    (∃ e, parse_answer ⟨200, none⟩ = Except.error e) ∧
    (new_image ⟨.ok ⟨200, none⟩, .ok ⟨200, none⟩, true, true⟩
        ⟨7, "Ann"⟩).2.count BACKUP_ENDPOINT = 0 ∧
    (wake_up ⟨.ok ⟨200, none⟩, .ok ⟨200, none⟩, true, true⟩
        ⟨7, "Ann"⟩).2.count BACKUP_ENDPOINT = 0 :=
  ⟨rfl, rfl, ⟨PyError.typeError "JSONDecodeError object is not callable", rfl⟩,
   (C4_parse_failure_no_fallback ⟨.ok ⟨200, none⟩, .ok ⟨200, none⟩, true, true⟩
     ⟨7, "Ann"⟩ ⟨200, none⟩ rfl rfl).1,
   (C4_parse_failure_no_fallback ⟨.ok ⟨200, none⟩, .ok ⟨200, none⟩, true, true⟩
     ⟨7, "Ann"⟩ ⟨200, none⟩ rfl rfl).2⟩

/-- C5: when the primary attempt failed and the secondary GET returns a
response with a non-200 status, `get_response` raises
`APIAnswerStatusCodeError` carrying the secondary endpoint URL and the
status code of the secondary response. -/
theorem C5_endpoint_unavailable (primary : FetchOutcome) (r : Response)
    (hp : primary_failed primary = true)
    (hs : r.status_code ≠ HTTPStatus_OK) :
    (get_response primary (.ok r)).1 =
      Except.error (.apiAnswerStatusCodeError BACKUP_ENDPOINT r.status_code) := by
  rw [get_response_primary_failed _ _ hp]
  simp [backup_attempt, hs]

/-- Witness for C5: primary returns 500, secondary returns 503. -/
theorem C5_endpoint_unavailable_witness :
    primary_failed (.ok ⟨500, none⟩) = true ∧
    (Response.mk 503 none).status_code ≠ HTTPStatus_OK ∧
    (get_response (.ok ⟨500, none⟩) (.ok ⟨503, none⟩)).1 =
      Except.error (.apiAnswerStatusCodeError BACKUP_ENDPOINT 503) :=
  ⟨by decide, by decide,
   C5_endpoint_unavailable (.ok ⟨500, none⟩) ⟨503, none⟩ (by decide) (by decide)⟩

/-- C6: a transport-level exception on the secondary GET is not caught
inside `get_response` — there is no third tier, the transport error itself
is what `get_response` raises — and the catch-all of the button handler
`new_image` then converts it into the single apology text to the user. -/
theorem C6_secondary_transport_uncaught (w : World) (chat : Chat)
    (msg : String) (hp : primary_failed w.primary = true)
    (hs : w.secondary = .transportError msg)
    (hm : w.sendMessageOk = true) :
    (get_response w.primary w.secondary).1 =
      Except.error (.transportError msg) ∧
    new_image w chat =
      ([.sendText chat.id APOLOGY_TEXT],
       [DEFAULT_ENDPOINT, BACKUP_ENDPOINT]) := by
  have hg : get_response w.primary w.secondary =
      (Except.error (.transportError msg),
       [DEFAULT_ENDPOINT, BACKUP_ENDPOINT]) := by
    rw [get_response_primary_failed _ _ hp, hs]
    rfl
  refine ⟨by rw [hg], ?_⟩
  unfold new_image image_flow
  rw [hg]
  simp [send_message, hm]

/-- Witness for C6: primary returns 500, secondary GET raises a transport
error. -/
theorem C6_secondary_transport_uncaught_witness :
    primary_failed (.ok ⟨500, none⟩) = true ∧
    (World.mk (.ok ⟨500, none⟩) (.transportError "connection refused")
        true true).secondary = .transportError "connection refused" ∧
    (get_response (.ok ⟨500, none⟩)
        (.transportError "connection refused")).1 =
      Except.error (.transportError "connection refused") ∧
    new_image ⟨.ok ⟨500, none⟩, .transportError "connection refused",
        true, true⟩ ⟨7, "Ann"⟩ =
      ([.sendText 7 APOLOGY_TEXT], [DEFAULT_ENDPOINT, BACKUP_ENDPOINT]) :=
  ⟨by decide, rfl,
   (C6_secondary_transport_uncaught
     ⟨.ok ⟨500, none⟩, .transportError "connection refused", true, true⟩
     ⟨7, "Ann"⟩ "connection refused" (by decide) rfl rfl).1,
   (C6_secondary_transport_uncaught
     ⟨.ok ⟨500, none⟩, .transportError "connection refused", true, true⟩
     ⟨7, "Ann"⟩ "connection refused" (by decide) rfl rfl).2⟩

/-- C7: a start command whose fetch succeeds (at either tier) with a
payload whose first element is an object with a "url" field produces
exactly two gateway calls, in order: the greeting text addressed by the
display name of the chat, then the image with the chat id and the value of
the "url" field. -/
theorem C7_start_greeting_then_image (w : World) (chat : Chat)
    (r : Response) (fields : List (String × Json)) (rest : List Json)
    (url : Json)
    (hg : (get_response w.primary w.secondary).1 = Except.ok r)
    (hr : r.jsonBody = some (.arr (.obj fields :: rest)))
    (hu : fields.lookup "url" = some url)
    (hm : w.sendMessageOk = true) (hph : w.sendPhotoOk = true) :
    (dispatch w chat "/start").1 =
      [.sendText chat.id (greeting_text chat.first_name),
       .sendImage chat.id url] := by
  have hparse : parse_answer r = Except.ok url := by
    unfold parse_answer
    rw [hr]
    simp [hu]
  have hflow : (image_flow w chat).1 = [.sendImage chat.id url] := by
    unfold image_flow
    rcases hgp : get_response w.primary w.secondary with ⟨res, trace⟩
    rw [hgp] at hg
    cases res with
    | error e => simp at hg
    | ok r2 =>
        simp only [Except.ok.injEq] at hg
        subst hg
        simp [hparse, hph]
  unfold dispatch
  rw [if_pos (show is_start_command "/start" = true from by decide),
    wake_up_eq, hflow]
  simp [send_message, hm]

/-- Witness for C7: sender Ann, primary endpoint answering 200 with
payload of one object holding only "url". -/
theorem C7_start_greeting_then_image_witness :
    (get_response
        (.ok ⟨200, some (.arr [.obj [("url", Json.str "http://x/cat.png")]])⟩)
        (.ok ⟨200, none⟩)).1 =
      Except.ok ⟨200, some (.arr [.obj [("url", Json.str "http://x/cat.png")]])⟩ ∧
    (dispatch
        ⟨.ok ⟨200, some (.arr [.obj [("url", Json.str "http://x/cat.png")]])⟩,
         .ok ⟨200, none⟩, true, true⟩ ⟨7, "Ann"⟩ "/start").1 =
      [.sendText 7 (greeting_text "Ann"),
       .sendImage 7 (Json.str "http://x/cat.png")] :=
  ⟨rfl,
   C7_start_greeting_then_image
     ⟨.ok ⟨200, some (.arr [.obj [("url", Json.str "http://x/cat.png")]])⟩,
      .ok ⟨200, none⟩, true, true⟩ ⟨7, "Ann"⟩
     ⟨200, some (.arr [.obj [("url", Json.str "http://x/cat.png")]])⟩
     [("url", Json.str "http://x/cat.png")] [] (Json.str "http://x/cat.png")
     rfl rfl rfl rfl rfl⟩

/-- C8: a message with the button text, during which both endpoints
return responses with non-200 statuses, produces exactly one gateway
call — the apology text — and no image; the handler returns normally. -/
theorem C8_trigger_both_non200 (w : World) (chat : Chat) (r1 r2 : Response)
    (hp : w.primary = .ok r1) (h1 : r1.status_code ≠ HTTPStatus_OK)
    (hs : w.secondary = .ok r2) (h2 : r2.status_code ≠ HTTPStatus_OK)
    (hm : w.sendMessageOk = true) :
    dispatch w chat BUTTON =
      ([.sendText chat.id APOLOGY_TEXT],
       [DEFAULT_ENDPOINT, BACKUP_ENDPOINT]) := by
  have hpf : primary_failed w.primary = true := by
    rw [hp]
    simp [primary_failed, h1]
  have hg : get_response w.primary w.secondary =
      (Except.error (.apiAnswerStatusCodeError BACKUP_ENDPOINT r2.status_code),
       [DEFAULT_ENDPOINT, BACKUP_ENDPOINT]) := by
    rw [get_response_primary_failed _ _ hpf, hs]
    simp [backup_attempt, h2]
  unfold dispatch
  rw [if_neg (show ¬ is_start_command BUTTON = true from by decide),
    if_pos (show button_filter BUTTON = true from by decide)]
  unfold new_image image_flow
  rw [hg]
  simp [send_message, hm]

/-- Witness for C8: both endpoints answer 500. -/
theorem C8_trigger_both_non200_witness :
    (World.mk (.ok ⟨500, none⟩) (.ok ⟨500, none⟩) true true).primary
        = .ok ⟨500, none⟩ ∧
    (Response.mk 500 none).status_code ≠ HTTPStatus_OK ∧
    dispatch ⟨.ok ⟨500, none⟩, .ok ⟨500, none⟩, true, true⟩ ⟨7, "Ann"⟩ BUTTON =
      ([.sendText 7 APOLOGY_TEXT], [DEFAULT_ENDPOINT, BACKUP_ENDPOINT]) :=
  ⟨rfl, by decide,
   C8_trigger_both_non200 ⟨.ok ⟨500, none⟩, .ok ⟨500, none⟩, true, true⟩
     ⟨7, "Ann"⟩ ⟨500, none⟩ ⟨500, none⟩ rfl (by decide) rfl (by decide) rfl⟩

/-- C9 (code bug): the trigger filter is not an exact match on the button
label. Line 200 passes the plain string `BUTTON` to `Filters.text`, and
the python-telegram-bot v13 filter it builds tests
`message.text in BUTTON` — Python SUBSTRING containment. The inbound text
"кот" is neither the start command nor the button label, yet it satisfies
the filter, routes to `new_image` and invokes the fetcher: the gateway
receives the fetched image, never the fixed cannot-chat text,
contradicting the claim and the module docstrings (images are sent only
on the button request; `reply_to_message` is documented as the handler of
every message except the button message). -/
theorem C9_substring_text_invokes_fetcher :
    is_start_command "кот" = false ∧
    ("кот" : String) ≠ BUTTON ∧
    button_filter "кот" = true ∧
    dispatch
        ⟨.ok ⟨200, some (.arr [.obj [("url", Json.str "http://x/cat.png")]])⟩,
         .ok ⟨200, none⟩, true, true⟩ ⟨7, "Ann"⟩ "кот" =
      ([.sendImage 7 (Json.str "http://x/cat.png")], [DEFAULT_ENDPOINT]) :=
  ⟨rfl, by decide, rfl, rfl⟩

/-- C10: when the image flow of a start command fails — the fetch raises,
or the fetched response fails parsing, or `bot.send_photo` raises — the
gateway receives exactly two text calls and no image: the greeting first
(sent before any fetch is attempted), then the apology. -/
theorem C10_start_failed_flow_two_texts (w : World) (chat : Chat)
    (hf : image_flow_fails w) (hm : w.sendMessageOk = true) :
    (wake_up w chat).1 =
      [.sendText chat.id (greeting_text chat.first_name),
       .sendText chat.id APOLOGY_TEXT] := by
  have hflow : (image_flow w chat).1 = [.sendText chat.id APOLOGY_TEXT] := by
    unfold image_flow
    rcases hg : get_response w.primary w.secondary with ⟨res, trace⟩
    cases res with
    | error e => simp [send_message, hm]
    | ok r =>
        rcases hf with ⟨e, he⟩ | ⟨r2, e, hr2, hpe⟩ | hph
        · rw [hg] at he
          simp at he
        · rw [hg] at hr2
          simp only [Except.ok.injEq] at hr2
          subst hr2
          simp [hpe, send_message, hm]
        · cases hpa : parse_answer r with
          | error e => simp [hpa, send_message, hm]
          | ok v => simp [hpa, hph, send_message, hm]
  rw [wake_up_eq, hflow]
  simp [send_message, hm]

/-- Witness for C10: both endpoints answer 500, so the fetch raises; the
greeting is still delivered, followed by the apology. -/
theorem C10_start_failed_flow_two_texts_witness :
    image_flow_fails ⟨.ok ⟨500, none⟩, .ok ⟨500, none⟩, true, true⟩ ∧
    (wake_up ⟨.ok ⟨500, none⟩, .ok ⟨500, none⟩, true, true⟩ ⟨7, "Ann"⟩).1 =
      [.sendText 7 (greeting_text "Ann"), .sendText 7 APOLOGY_TEXT] :=
  ⟨Or.inl ⟨PyError.apiAnswerStatusCodeError BACKUP_ENDPOINT 500, rfl⟩,
   C10_start_failed_flow_two_texts
     ⟨.ok ⟨500, none⟩, .ok ⟨500, none⟩, true, true⟩ ⟨7, "Ann"⟩
     (Or.inl ⟨PyError.apiAnswerStatusCodeError BACKUP_ENDPOINT 500, rfl⟩) rfl⟩

end Kisunyabot
